import Mathlib

/-!
Verification of the ago-wash-backend loyalty API core: the read-through /
write-invalidate cache layer over the blockchain ledger, the tier engine,
the free-wash coupon reporting, and the transaction-recording orchestration.

The embedding follows the JavaScript sources:
  - cacheService (generateKey, cacheData, getCachedData, invalidateCache)
  - blockchainService (getUserPoints, getNFTMetadata, getFreeWashStatus,
    recordTransaction, signRedeemPackage)
  - ipfsService (determineTierByPoints)
  - blockchainController (getFreeWashStatusHandler)
  - transactionController (recordTransactionHandler)

The external Chain (smart contract), the Redis cache health, and the
notifier are modelled as explicit state and oracle flags threaded
through the functions; the Mongo session is modelled by making locally
saved records visible only at commit.
-/

set_option autoImplicit false

deriving instance DecidableEq for Except

namespace AgoWash

/-! ## JavaScript number coercion

The service converts chain BigNumber values with the expression
Number(x.toString()).  A JavaScript number is an IEEE-754 double:
integers up to 2 to the 53rd are exact, larger integers are rounded to
the nearest 53-bit-significand value, ties to even.  `roundTo53` models
that conversion on naturals.  `scaleDownCount` counts the halvings
needed to bring the value under 2 to the 53rd; recursion is on a fuel
argument that starts at the number itself, which always suffices. -/

def scaleDownCount : Nat → Nat → Nat
  | 0, _ => 0
  | fuel + 1, m => if m < 2 ^ 53 then 0 else scaleDownCount fuel (m / 2) + 1

/-- Model of the JavaScript coercion Number(x.toString()) on a natural:
round to nearest 53-bit-significand integer, ties to even. -/
def roundTo53 (n : Nat) : Nat :=
  let k := scaleDownCount n n
  if k = 0 then n
  else
    let q := n / 2 ^ k
    let r := n % 2 ^ k
    let half := 2 ^ (k - 1)
    let q2 := if half < r ∨ (r = half ∧ q % 2 = 1) then q + 1 else q
    q2 * 2 ^ k

theorem scaleDownCount_eq_zero (fuel m : Nat) (h : m < 2 ^ 53) :
    scaleDownCount fuel m = 0 := by
  cases fuel with
  | zero => rfl
  | succ f =>
    simp only [scaleDownCount]
    rw [if_pos h]

/-- Values below 2 to the 53rd are represented exactly. -/
theorem roundTo53_small (n : Nat) (h : n < 2 ^ 53) : roundTo53 n = n := by
  simp [roundTo53, scaleDownCount_eq_zero n n h]

/-! ## Data model (transformed chain records, as built in blockchainService) -/

/-- Transformed free-wash status, as cached and returned by
getFreeWashStatus: available, expiryTime, used. -/
structure FreeWash where
  available : Bool
  expiryTime : Nat
  used : Bool
  deriving DecidableEq, Repr

/-- Transformed NFT metadata, as cached and returned by getNFTMetadata. -/
structure NFTMeta where
  tokenId : Nat
  metadataURI : String
  points : Nat
  tier : String
  expiryTime : Nat
  nftExists : Bool
  deriving DecidableEq, Repr

/-- A JSON value stored in the Redis cache.  The writers of the three
key families store a number, a free-wash record or an NFT record
respectively; reads return whatever JSON was stored under the key. -/
inductive JsVal where
  | num (n : Nat)
  | fw (s : FreeWash)
  | nft (m : NFTMeta)
  deriving DecidableEq, Repr

/-- Reading a cached value where the caller expects a number
(cache keys under the userPoints family only ever hold numbers). -/
def JsVal.toNum : JsVal → Nat
  | .num n => n
  | _ => 0

/-- Reading a cached value where the caller expects a free-wash record. -/
def JsVal.toFw : JsVal → FreeWash
  | .fw s => s
  | _ => ⟨false, 0, false⟩

/-- Reading a cached value where the caller expects an NFT record. -/
def JsVal.toNft : JsVal → NFTMeta
  | .nft m => m
  | _ => ⟨0, "", 0, "", 0, false⟩

/-! ## The external Chain

The smart contract is an external collaborator.  Its observable state
holds, per address, the raw points balance, the raw NFT metadata and the
raw free-wash status; oracle flags say whether each RPC succeeds on this
call.  recordTransaction on the contract credits recordDelta points to
the address (the contract's points-per-wash policy) and returns a
transaction hash; it does not touch the NFT metadata record.
signature is the EIP-712 encoding the thirdweb SDK signer produces for
a redeem payload, and signOk says whether that encode call succeeds. -/

structure Chain where
  points : String → Nat
  nft : String → NFTMeta
  freeWash : String → FreeWash
  recordOk : Bool
  recordDelta : Nat
  readPointsOk : Bool
  readNFTOk : Bool
  readFreeWashOk : Bool
  signOk : Bool
  signature : String → Nat → Nat → String

/-- Effect of a successful contract recordTransaction call on chain state. -/
def Chain.applyRecord (ch : Chain) (userAddress : String) : Chain :=
  { ch with points := fun a => if a = userAddress then ch.points a + ch.recordDelta else ch.points a }

/-! ## Cache store (Redis), from cacheService

The store is an association list from key to value and absolute expiry
time; `healthy` models whether the Redis connection is up (every
operation throws when it is down, and the service catches and absorbs
the error). -/

def lookupEntry (st : List (String × JsVal × Nat)) (k : String) : Option (JsVal × Nat) :=
  match st with
  | [] => none
  | (k2, v, e) :: rest => if k2 = k then some (v, e) else lookupEntry rest k

def removeEntry (st : List (String × JsVal × Nat)) (k : String) : List (String × JsVal × Nat) :=
  match st with
  | [] => []
  | (k2, v, e) :: rest => if k2 = k then removeEntry rest k else (k2, v, e) :: removeEntry rest k

def setEntry (st : List (String × JsVal × Nat)) (k : String) (v : JsVal) (e : Nat) :
    List (String × JsVal × Nat) :=
  (k, v, e) :: removeEntry st k

structure CacheState where
  healthy : Bool
  store : List (String × JsVal × Nat)
  deriving DecidableEq

/-- Default cache expiration time, 10 minutes (cacheService DEFAULT_EXPIRY). -/
def DEFAULT_EXPIRY : Nat := 60 * 10

/-- cacheService.generateKey. -/
def generateKey (pre identifier : String) : String :=
  pre ++ ":" ++ identifier

/-- cacheService.CacheKeys. -/
def CacheKeys.USER_POINTS : String := "userPoints"

def CacheKeys.FREE_WASH_STATUS : String := "freeWashStatus"

def CacheKeys.NFT_METADATA : String := "nftMetadata"

/-- cacheService.cacheData: setEx with TTL; a cache failure is caught
and reported as false, never thrown. -/
def cacheData (c : CacheState) (now : Nat) (key : String) (data : JsVal) (expirySeconds : Nat) :
    CacheState × Bool :=
  if c.healthy then ({ c with store := setEntry c.store key data (now + expirySeconds) }, true)
  else (c, false)

/-- cacheService.getCachedData: returns the cached JSON or null; a cache
failure is caught and turned into null (a forced miss). -/
def getCachedData (c : CacheState) (now : Nat) (key : String) : Option JsVal :=
  if c.healthy then
    match lookupEntry c.store key with
    | some (v, e) => if now < e then some v else none
    | none => none
  else none

/-- cacheService.invalidateCache: del key; a cache failure is caught and
reported as false, never thrown. -/
def invalidateCache (c : CacheState) (key : String) : CacheState × Bool :=
  if c.healthy then ({ c with store := removeEntry c.store key }, true)
  else (c, false)

/-! ## Store lemmas -/

theorem lookupEntry_setEntry_self (st : List (String × JsVal × Nat)) (k : String) (v : JsVal) (e : Nat) :
    lookupEntry (setEntry st k v e) k = some (v, e) := by
  simp [setEntry, lookupEntry]

theorem lookupEntry_setEntry_ne (st : List (String × JsVal × Nat)) (k k2 : String) (v : JsVal)
    (e : Nat) (h : k2 ≠ k) : lookupEntry (setEntry st k v e) k2 = lookupEntry st k2 := by
  simp only [setEntry, lookupEntry]
  rw [if_neg (by exact fun hc => h hc.symm)]
  induction st with
  | nil => rfl
  | cons hd tl ih =>
    obtain ⟨k3, v3, e3⟩ := hd
    by_cases h3 : k3 = k
    · simp [removeEntry, lookupEntry, h3, Ne.symm h, ih]
    · simp only [removeEntry, lookupEntry, if_neg h3]
      by_cases h4 : k3 = k2
      · simp [lookupEntry, h4]
      · simp [lookupEntry, h4, ih]

theorem lookupEntry_removeEntry_self (st : List (String × JsVal × Nat)) (k : String) :
    lookupEntry (removeEntry st k) k = none := by
  induction st with
  | nil => rfl
  | cons hd tl ih =>
    obtain ⟨k2, v, e⟩ := hd
    by_cases h : k2 = k
    · simp [removeEntry, h, ih]
    · simp [removeEntry, lookupEntry, h, ih]

theorem lookupEntry_removeEntry_ne (st : List (String × JsVal × Nat)) (k k2 : String)
    (h : k2 ≠ k) : lookupEntry (removeEntry st k) k2 = lookupEntry st k2 := by
  induction st with
  | nil => rfl
  | cons hd tl ih =>
    obtain ⟨k3, v, e⟩ := hd
    by_cases h3 : k3 = k
    · simp [removeEntry, lookupEntry, h3, Ne.symm h, ih]
    · simp only [removeEntry, lookupEntry, if_neg h3]
      by_cases h4 : k3 = k2
      · simp [lookupEntry, h4]
      · simp [lookupEntry, h4, ih]

/-! ## Distinctness of the generated cache keys -/

theorem String.data_append_eq (p q : String) : (p ++ q).data = p.data ++ q.data := by
  cases p
  cases q
  rfl

theorem append_ne_of_head_ne (c d : Char) (hcd : c ≠ d) (p q s t : String)
    (hp : p.data.head? = some c) (hq : q.data.head? = some d) : p ++ s ≠ q ++ t := by
  intro h
  have hdata : (p ++ s).data = (q ++ t).data := by rw [h]
  rw [String.data_append_eq, String.data_append_eq] at hdata
  cases hps : p.data with
  | nil => rw [hps] at hp; simp at hp
  | cons c1 ps =>
    cases hqs : q.data with
    | nil => rw [hqs] at hq; simp at hq
    | cons d1 qs =>
      rw [hps] at hp
      rw [hqs] at hq
      simp at hp hq
      rw [hps, hqs] at hdata
      simp at hdata
      exact hcd (hp ▸ hq ▸ hdata.1)

theorem pointsKey_ne_fwKey (a b : String) :
    generateKey CacheKeys.USER_POINTS a ≠ generateKey CacheKeys.FREE_WASH_STATUS b := by
  have h := append_ne_of_head_ne 'u' 'f' (by decide)
    (CacheKeys.USER_POINTS ++ ":") (CacheKeys.FREE_WASH_STATUS ++ ":") a b (by decide) (by decide)
  simpa [generateKey] using h

theorem pointsKey_ne_nftKey (a b : String) :
    generateKey CacheKeys.USER_POINTS a ≠ generateKey CacheKeys.NFT_METADATA b := by
  have h := append_ne_of_head_ne 'u' 'n' (by decide)
    (CacheKeys.USER_POINTS ++ ":") (CacheKeys.NFT_METADATA ++ ":") a b (by decide) (by decide)
  simpa [generateKey] using h

theorem fwKey_ne_nftKey (a b : String) :
    generateKey CacheKeys.FREE_WASH_STATUS a ≠ generateKey CacheKeys.NFT_METADATA b := by
  have h := append_ne_of_head_ne 'f' 'n' (by decide)
    (CacheKeys.FREE_WASH_STATUS ++ ":") (CacheKeys.NFT_METADATA ++ ":") a b (by decide) (by decide)
  simpa [generateKey] using h

/-! ## Tier engine (ipfsService.determineTierByPoints) -/

def determineTierByPoints (points : Nat) : String :=
  if points ≥ 5000 then "Gold"
  else if points ≥ 1000 then "Silver"
  else "Bronze"

/-! ## Ledger Gateway (blockchainService) -/

/-- Errors thrown by the service layer. -/
inductive JsError where
  | chainError
  | invalidPackageType
  | insufficientPoints (required available : Nat)
  deriving DecidableEq, Repr

/-- Result of a read-through service call: the returned value or thrown
error, the cache state afterwards, and whether the Chain was invoked. -/
structure ReadResult (α : Type) where
  result : Except JsError α
  cache : CacheState
  chainCalled : Bool

/-- blockchainService.getUserPoints: check the cache first; on a miss
fetch from the contract, coerce the BigNumber with Number(), cache the
result with the default TTL, and return it. -/
def getUserPoints (ch : Chain) (c : CacheState) (now : Nat) (userAddress : String) :
    ReadResult Nat :=
  let cacheKey := generateKey CacheKeys.USER_POINTS userAddress
  match getCachedData c now cacheKey with
  | some cachedPoints => ⟨.ok cachedPoints.toNum, c, false⟩
  | none =>
    if ch.readPointsOk then
      let pointsValue := roundTo53 (ch.points userAddress)
      let c2 := (cacheData c now cacheKey (.num pointsValue) DEFAULT_EXPIRY).1
      ⟨.ok pointsValue, c2, true⟩
    else ⟨.error .chainError, c, true⟩

/-- blockchainService.getNFTMetadata: read-through over the nftMetadata
key; on a miss transform the raw record (Number() on the numeric
fields) and cache it. -/
def getNFTMetadata (ch : Chain) (c : CacheState) (now : Nat) (userAddress : String) :
    ReadResult NFTMeta :=
  let cacheKey := generateKey CacheKeys.NFT_METADATA userAddress
  match getCachedData c now cacheKey with
  | some cachedMetadata => ⟨.ok cachedMetadata.toNft, c, false⟩
  | none =>
    if ch.readNFTOk then
      let raw := ch.nft userAddress
      let transformedMetadata : NFTMeta :=
        { tokenId := roundTo53 raw.tokenId
          metadataURI := raw.metadataURI
          points := roundTo53 raw.points
          tier := raw.tier
          expiryTime := roundTo53 raw.expiryTime
          nftExists := raw.nftExists }
      let c2 := (cacheData c now cacheKey (.nft transformedMetadata) DEFAULT_EXPIRY).1
      ⟨.ok transformedMetadata, c2, true⟩
    else ⟨.error .chainError, c, true⟩

/-- blockchainService.getFreeWashStatus: read-through over the
freeWashStatus key; on a miss transform the raw status and cache it. -/
def getFreeWashStatus (ch : Chain) (c : CacheState) (now : Nat) (userAddress : String) :
    ReadResult FreeWash :=
  let cacheKey := generateKey CacheKeys.FREE_WASH_STATUS userAddress
  match getCachedData c now cacheKey with
  | some cachedStatus => ⟨.ok cachedStatus.toFw, c, false⟩
  | none =>
    if ch.readFreeWashOk then
      let raw := ch.freeWash userAddress
      let transformedStatus : FreeWash :=
        { available := raw.available
          expiryTime := roundTo53 raw.expiryTime
          used := raw.used }
      let c2 := (cacheData c now cacheKey (.fw transformedStatus) DEFAULT_EXPIRY).1
      ⟨.ok transformedStatus, c2, true⟩
    else ⟨.error .chainError, c, true⟩

/-- Result of the write path: the transaction hash or thrown error, the
cache afterwards, and the chain afterwards. -/
structure WriteResult where
  result : Except JsError String
  cache : CacheState
  chain : Chain

/-- blockchainService.recordTransaction: call the contract; on success
invalidate the user's userPoints, freeWashStatus and nftMetadata keys
and return the transaction hash; on failure rethrow without touching
the cache. -/
def recordTransaction (ch : Chain) (c : CacheState) (userAddress : String) (timestamp : Nat) :
    WriteResult :=
  let _timestampInSeconds := timestamp / 1000
  if ch.recordOk then
    let ch2 := ch.applyRecord userAddress
    let c1 := (invalidateCache c (generateKey CacheKeys.USER_POINTS userAddress)).1
    let c2 := (invalidateCache c1 (generateKey CacheKeys.FREE_WASH_STATUS userAddress)).1
    let c3 := (invalidateCache c2 (generateKey CacheKeys.NFT_METADATA userAddress)).1
    ⟨.ok "0xtxhash", c3, ch2⟩
  else ⟨.error .chainError, c, ch⟩

/-- Required points per package type (the switch in signRedeemPackage);
none models the default branch that throws Invalid package type. -/
def requiredPointsFor (packageType : Nat) : Option Nat :=
  if packageType = 1 then some 1000
  else if packageType = 2 then some 3000
  else if packageType = 3 then some 5000
  else none

/-- config/blockchain generateEIP712Signature: builds the EIP-712 typed
payload from user address, package type and nonce and has the thirdweb
SDK signer encode it.  The encode call is an external SDK call that may
throw; on failure the error is logged and rethrown.  The signature
bytes the SDK produces for the payload are the chain state's signature
field, and signOk says whether the call succeeds. -/
def generateEIP712Signature (ch : Chain) (userAddress : String) (packageType nonce : Nat) :
    Except JsError String :=
  if ch.signOk then .ok (ch.signature userAddress packageType nonce)
  else .error .chainError

/-- Result of signRedeemPackage: the signature or thrown error, the
cache afterwards, the chain afterwards (the function performs no ledger
mutation), and whether the EIP-712 signer was invoked. -/
structure SignResult where
  result : Except JsError String
  cache : CacheState
  chain : Chain
  signed : Bool

/-- blockchainService.signRedeemPackage: read the user's points, map the
package type to its threshold (throwing on an unknown type), throw
insufficientPoints below the threshold, otherwise call the EIP-712
signer and return its signature; a signer failure propagates to the
caller through the surrounding try/catch rethrow. -/
def signRedeemPackage (ch : Chain) (c : CacheState) (now : Nat) (userAddress : String)
    (packageType nonce : Nat) : SignResult :=
  let r := getUserPoints ch c now userAddress
  match r.result with
  | .error e => ⟨.error e, r.cache, ch, false⟩
  | .ok points =>
    match requiredPointsFor packageType with
    | none => ⟨.error .invalidPackageType, r.cache, ch, false⟩
    | some requiredPoints =>
      if points < requiredPoints then
        ⟨.error (.insufficientPoints requiredPoints points), r.cache, ch, false⟩
      else
        match generateEIP712Signature ch userAddress packageType nonce with
        | .ok signature => ⟨.ok signature, r.cache, ch, true⟩
        | .error e => ⟨.error e, r.cache, ch, true⟩

/-! ## Free-wash status endpoint (blockchainController.getFreeWashStatusHandler) -/

/-- The JSON body returned by the free-wash-status endpoint. -/
structure FreeWashResponse where
  active : Bool
  expiryTime : Nat
  used : Bool
  deriving DecidableEq, Repr

/-- blockchainController.getFreeWashStatusHandler: fetch the status and
report active as available and not used. -/
def getFreeWashStatusHandler (ch : Chain) (c : CacheState) (now : Nat) (userAddress : String) :
    Except JsError FreeWashResponse × CacheState :=
  let r := getFreeWashStatus ch c now userAddress
  match r.result with
  | .ok status => (.ok ⟨status.available && !status.used, status.expiryTime, status.used⟩, r.cache)
  | .error e => (.error e, r.cache)

/-- Modelled from the spec: the coupon-activity predicate isActive of
the Free-Wash Coupon Tracker, stated in the spec as
available and not used and now before expiryTime. -/
def isActiveSpec (coupon : FreeWash) (now : Nat) : Bool :=
  coupon.available && !coupon.used && decide (now < coupon.expiryTime)

/-! ## Transaction Orchestrator (transactionController.recordTransactionHandler)

The Mongo session is modelled by making records saved inside the
session visible in the store only when the session commits; an aborted
session leaves the store unchanged.  Email sends are wrapped in their
own try/catch in the source, so a failed send only affects the
delivered counter, never control flow; websocket emits happen after the
commit. -/

/-- A committed Store transaction record (models/Transaction fields the
orchestration touches). -/
structure TxRecord where
  userAddress : String
  date : String
  recordedOnChain : Bool
  blockchainTxHash : Option String
  deriving DecidableEq, Repr

/-- The environment of one orchestration call: chain and cache state,
the wall clock, whether User.findOne finds the user, and whether each
email send succeeds. -/
structure Env where
  chain : Chain
  cache : CacheState
  now : Nat
  userFound : Bool
  emailFreeWashOk : Bool
  emailTierOk : Bool

/-- Observable outcome of one orchestration call: HTTP status, the
store and cache and chain afterwards, counters for attempted and
delivered notifications and for websocket events, and the response
payload. -/
structure HandlerOutcome where
  status : Nat
  store : List TxRecord
  cache : CacheState
  chain : Chain
  freeWashEmailsAttempted : Nat
  freeWashEmailsDelivered : Nat
  tierEmailsAttempted : Nat
  tierEmailsDelivered : Nat
  txRecordedEvents : Nat
  tierUpgradedEvents : Nat
  responsePoints : Option Nat
  responseTier : Option String

/-- transactionController.recordTransactionHandler: find the user, save
a pending record in the session, call the chain; on chain failure abort
the session and answer 500; on success send the free-wash email
(failure absorbed), re-read points and NFT metadata (a failure of
either is caught by the same catch block, aborting the session and
answering 500), send the tier email when the fresh tier differs from
the NFT tier (failure absorbed), commit, emit the websocket events, and
answer 200. -/
def recordTransactionHandler (env : Env) (store0 : List TxRecord) (userAddress date : String) :
    HandlerOutcome :=
  if env.userFound = false then
    ⟨404, store0, env.cache, env.chain, 0, 0, 0, 0, 0, 0, none, none⟩
  else
    let w := recordTransaction env.chain env.cache userAddress env.now
    match w.result with
    | .error _ => ⟨500, store0, w.cache, w.chain, 0, 0, 0, 0, 0, 0, none, none⟩
    | .ok txHash =>
      let fwDelivered := if env.emailFreeWashOk then 1 else 0
      let r1 := getUserPoints w.chain w.cache env.now userAddress
      match r1.result with
      | .error _ => ⟨500, store0, r1.cache, w.chain, 1, fwDelivered, 0, 0, 0, 0, none, none⟩
      | .ok points =>
        let newTier := determineTierByPoints points
        let r2 := getNFTMetadata w.chain r1.cache env.now userAddress
        match r2.result with
        | .error _ => ⟨500, store0, r2.cache, w.chain, 1, fwDelivered, 0, 0, 0, 0, none, none⟩
        | .ok nftMetadata =>
          let currentTier := if nftMetadata.tier = "" then "Bronze" else nftMetadata.tier
          let tierAttempted := if newTier ≠ currentTier then 1 else 0
          let tierDelivered := if newTier ≠ currentTier ∧ env.emailTierOk then 1 else 0
          { status := 200
            store := store0 ++ [⟨userAddress, date, true, some txHash⟩]
            cache := r2.cache
            chain := w.chain
            freeWashEmailsAttempted := 1
            freeWashEmailsDelivered := fwDelivered
            tierEmailsAttempted := tierAttempted
            tierEmailsDelivered := tierDelivered
            txRecordedEvents := 1
            tierUpgradedEvents := tierAttempted
            responsePoints := some points
            responseTier := some newTier }

/-! ## Concrete fixtures (shared by witnesses and counterexamples) -/

/-- An NFT record whose tier snapshot is Bronze, as minted for a new user. -/
def bronzeNft : NFTMeta := ⟨1, "ipfs://m", 950, "Bronze", 0, true⟩

/-- A healthy chain: a user at 950 points, 60 points per recorded wash,
a Bronze NFT snapshot, an unused coupon that expired at time 0. -/
def baseChain : Chain :=
  { points := fun _ => 950
    nft := fun _ => bronzeNft
    freeWash := fun _ => ⟨true, 0, false⟩
    recordOk := true
    recordDelta := 60
    readPointsOk := true
    readNFTOk := true
    readFreeWashOk := true
    signOk := true
    signature := fun _ _ _ => "0xsig" }

/-- The same chain with the recordTransaction contract call failing. -/
def failChain : Chain := { baseChain with recordOk := false }

/-- An empty, healthy cache. -/
def emptyCache : CacheState := ⟨true, []⟩

/-! ## Cache-effect helper lemmas -/

theorem invalidateCache_healthy (st : List (String × JsVal × Nat)) (k : String) :
    invalidateCache ⟨true, st⟩ k = (⟨true, removeEntry st k⟩, true) := by
  simp [invalidateCache]

theorem invalidateCache_down (st : List (String × JsVal × Nat)) (k : String) :
    invalidateCache ⟨false, st⟩ k = (⟨false, st⟩, false) := by
  simp [invalidateCache]

theorem recordTransaction_cache_healthy (ch : Chain) (st : List (String × JsVal × Nat))
    (a : String) (ts : Nat) (hr : ch.recordOk = true) :
    (recordTransaction ch ⟨true, st⟩ a ts).cache =
      ⟨true, removeEntry (removeEntry (removeEntry st
        (generateKey CacheKeys.USER_POINTS a)) (generateKey CacheKeys.FREE_WASH_STATUS a))
        (generateKey CacheKeys.NFT_METADATA a)⟩ := by
  simp [recordTransaction, hr, invalidateCache]

theorem recordTransaction_cache_down (ch : Chain) (st : List (String × JsVal × Nat))
    (a : String) (ts : Nat) (hr : ch.recordOk = true) :
    (recordTransaction ch ⟨false, st⟩ a ts).cache = ⟨false, st⟩ := by
  simp [recordTransaction, hr, invalidateCache]

theorem recordTransaction_result_ok (ch : Chain) (c : CacheState) (a : String) (ts : Nat)
    (hr : ch.recordOk = true) :
    (recordTransaction ch c a ts).result = Except.ok "0xtxhash" ∧
    (recordTransaction ch c a ts).chain = ch.applyRecord a := by
  simp [recordTransaction, hr]

/-- After a successful write, the user's points key is gone from the
cache view: a healthy cache had it deleted, an unreachable cache
cannot serve it. -/
theorem recordTransaction_points_miss (ch : Chain) (c : CacheState) (a : String) (ts now : Nat)
    (hr : ch.recordOk = true) :
    getCachedData (recordTransaction ch c a ts).cache now
      (generateKey CacheKeys.USER_POINTS a) = none := by
  obtain ⟨hh, st⟩ := c
  cases hh
  · rw [recordTransaction_cache_down ch st a ts hr]
    simp [getCachedData]
  · rw [recordTransaction_cache_healthy ch st a ts hr]
    simp only [getCachedData, if_true]
    rw [lookupEntry_removeEntry_ne _ _ _ (pointsKey_ne_nftKey a a),
      lookupEntry_removeEntry_ne _ _ _ (pointsKey_ne_fwKey a a),
      lookupEntry_removeEntry_self]

/-- After a successful write, the user's NFT metadata key is gone from
the cache view. -/
theorem recordTransaction_nft_miss (ch : Chain) (c : CacheState) (a : String) (ts now : Nat)
    (hr : ch.recordOk = true) :
    getCachedData (recordTransaction ch c a ts).cache now
      (generateKey CacheKeys.NFT_METADATA a) = none := by
  obtain ⟨hh, st⟩ := c
  cases hh
  · rw [recordTransaction_cache_down ch st a ts hr]
    simp [getCachedData]
  · rw [recordTransaction_cache_healthy ch st a ts hr]
    simp only [getCachedData, if_true]
    rw [lookupEntry_removeEntry_self]

/-- A cache miss always sends getUserPoints to the Chain. -/
theorem getUserPoints_chainCalled_of_miss (ch : Chain) (c : CacheState) (now : Nat) (a : String)
    (hmiss : getCachedData c now (generateKey CacheKeys.USER_POINTS a) = none) :
    (getUserPoints ch c now a).chainCalled = true := by
  cases hro : ch.readPointsOk <;> simp [getUserPoints, hmiss, hro]

/-- A value just written to a healthy cache is visible at the same
instant under its key. -/
theorem getCachedData_after_cacheData_self (c : CacheState) (now : Nat) (k : String) (v : JsVal)
    (e : Nat) (hh : c.healthy = true) (he : 0 < e) :
    getCachedData (cacheData c now k v e).1 now k = some v := by
  simp [cacheData, hh, getCachedData, lookupEntry_setEntry_self, Nat.lt_add_of_pos_right he]

/-- getUserPoints only ever writes the user's own userPoints key: the
cache view of any other key is unchanged. -/
theorem getUserPoints_cache_other_key (ch : Chain) (c : CacheState) (now : Nat) (a k : String)
    (hk : k ≠ generateKey CacheKeys.USER_POINTS a) :
    getCachedData (getUserPoints ch c now a).cache now k = getCachedData c now k := by
  cases hcv : getCachedData c now (generateKey CacheKeys.USER_POINTS a) with
  | some v => simp [getUserPoints, hcv]
  | none =>
    cases hro : ch.readPointsOk
    · simp [getUserPoints, hcv, hro]
    · simp only [getUserPoints, hcv, hro, if_true]
      obtain ⟨hh, st⟩ := c
      cases hh
      · simp [cacheData]
      · simp [cacheData, getCachedData, lookupEntry_setEntry_ne _ _ _ _ _ hk]

/-! ## Claim theorems -/

/-- C5: determineTierByPoints returns Bronze exactly on points below
1000, Silver exactly on 1000 to 4999, Gold exactly from 5000 up, with
the boundary values 999, 1000, 4999 and 5000 landing as stated; the
function is a pure total function of the point value. -/
theorem determineTierByPoints_boundaries (p : Nat) :
    (determineTierByPoints p = "Bronze" ↔ p < 1000) ∧
    (determineTierByPoints p = "Silver" ↔ 1000 ≤ p ∧ p < 5000) ∧
    (determineTierByPoints p = "Gold" ↔ 5000 ≤ p) ∧
    determineTierByPoints 999 = "Bronze" ∧
    determineTierByPoints 1000 = "Silver" ∧
    determineTierByPoints 4999 = "Silver" ∧
    determineTierByPoints 5000 = "Gold" := by
  have hgb : ("Gold" : String) ≠ "Bronze" := by decide
  have hgs : ("Gold" : String) ≠ "Silver" := by decide
  have hsb : ("Silver" : String) ≠ "Bronze" := by decide
  refine ⟨?_, ?_, ?_, by decide, by decide, by decide, by decide⟩ <;>
    by_cases h5 : 5000 ≤ p <;> by_cases h1 : 1000 ≤ p <;>
      simp [determineTierByPoints, h5, h1, hgb, hgs, hsb, hgb.symm, hgs.symm, hsb.symm] <;>
      omega

/-- C2 counterexample: on a chain whose coupon is available, unused and
expired at time 0, queried at time 10, the endpoint reports the coupon
active, while the claimed predicate (available, unused and now before
expiry) is false; so activity is not reported as the claim states. -/
theorem freeWashHandler_reports_expired_active_cex :
    (getFreeWashStatusHandler baseChain emptyCache 10 "0xabc").1 =
      Except.ok ⟨true, 0, false⟩ ∧
    isActiveSpec ⟨true, 0, false⟩ 10 = false := by decide

/-- C2 amended: the endpoint reports the coupon active exactly when it
is available and not used; the expiry time is returned in the response
but never consulted for the active flag. -/
theorem freeWashHandler_active_ignores_expiry (ch : Chain) (c : CacheState) (now : Nat)
    (a : String) (hok : ch.readFreeWashOk = true) (hc : c.store = []) :
    (getFreeWashStatusHandler ch c now a).1 =
      Except.ok ⟨(ch.freeWash a).available && !(ch.freeWash a).used,
        roundTo53 (ch.freeWash a).expiryTime, (ch.freeWash a).used⟩ := by
  obtain ⟨hh, st⟩ := c
  simp only at hc
  subst hc
  cases hh <;>
    simp [getFreeWashStatusHandler, getFreeWashStatus, getCachedData, lookupEntry, hok, cacheData]

/-- C2 witness: the amended statement evaluated on the base fixture. -/
theorem freeWashHandler_active_ignores_expiry_witness :
    (getFreeWashStatusHandler baseChain emptyCache 10 "0xw").1 =
      Except.ok ⟨(baseChain.freeWash "0xw").available && !(baseChain.freeWash "0xw").used,
        roundTo53 (baseChain.freeWash "0xw").expiryTime, (baseChain.freeWash "0xw").used⟩ :=
  freeWashHandler_active_ignores_expiry baseChain emptyCache 10 "0xw" rfl rfl

/-- A chain returning a points balance one above the largest exactly
representable JavaScript integer. -/
def hugeChain : Chain := { baseChain with points := fun _ => 2 ^ 53 + 1 }

/-- C6 counterexample: with the chain holding 2 to the 53rd plus 1
points, getUserPoints returns success with the silently rounded value 2
to the 53rd, and caches that rounded value, instead of failing with a
data-integrity error as the claim states. -/
theorem getUserPoints_truncates_cex :
    2 ^ 53 < 2 ^ 53 + 1 ∧
    (getUserPoints hugeChain emptyCache 10 "0xabc").result = Except.ok (2 ^ 53) ∧
    (2 : Nat) ^ 53 ≠ 2 ^ 53 + 1 ∧
    lookupEntry (getUserPoints hugeChain emptyCache 10 "0xabc").cache.store
      (generateKey CacheKeys.USER_POINTS "0xabc") =
      some (JsVal.num (2 ^ 53), 610) := by decide

/-- C6 amended: on a cache miss getUserPoints always returns success
with the Number() coercion of the chain value, whatever its magnitude;
the coercion rounds values beyond the safe integer range (for instance
2 to the 53rd plus 1 becomes 2 to the 53rd) and no error is raised. -/
theorem getUserPoints_coerces_without_integrity_check (ch : Chain) (c : CacheState) (now : Nat)
    (a : String) (hok : ch.readPointsOk = true)
    (hmiss : getCachedData c now (generateKey CacheKeys.USER_POINTS a) = none) :
    (getUserPoints ch c now a).result = Except.ok (roundTo53 (ch.points a)) ∧
    roundTo53 (2 ^ 53 + 1) = 2 ^ 53 := by
  constructor
  · simp [getUserPoints, hmiss, hok]
  · decide

/-- C6 witness: the amended statement evaluated on the huge-value chain. -/
theorem getUserPoints_coerces_without_integrity_check_witness :
    (getUserPoints hugeChain emptyCache 10 "0xabc").result =
      Except.ok (roundTo53 (hugeChain.points "0xabc")) ∧
    roundTo53 (2 ^ 53 + 1) = 2 ^ 53 :=
  getUserPoints_coerces_without_integrity_check hugeChain emptyCache 10 "0xabc" rfl rfl

/-- An unreachable cache. -/
def downCache : CacheState := ⟨false, []⟩

/-- C8: when every cache operation fails, getUserPoints still returns
the value obtained from the Chain, reports no error, and the failed
cache write is absorbed, leaving the cache state as it was. -/
theorem getUserPoints_cache_unreachable_transparent (ch : Chain) (c : CacheState) (now : Nat)
    (a : String) (hh : c.healthy = false) (hok : ch.readPointsOk = true) :
    (getUserPoints ch c now a).result = Except.ok (roundTo53 (ch.points a)) ∧
    (getUserPoints ch c now a).chainCalled = true ∧
    (getUserPoints ch c now a).cache = c := by
  have hmiss : getCachedData c now (generateKey CacheKeys.USER_POINTS a) = none := by
    simp [getCachedData, hh]
  simp [getUserPoints, hmiss, hok, cacheData, hh]

/-- C8 witness: the statement evaluated with the cache down. -/
theorem getUserPoints_cache_unreachable_transparent_witness :
    (getUserPoints baseChain downCache 5 "0xabc").result =
      Except.ok (roundTo53 (baseChain.points "0xabc")) ∧
    (getUserPoints baseChain downCache 5 "0xabc").chainCalled = true ∧
    (getUserPoints baseChain downCache 5 "0xabc").cache = downCache :=
  getUserPoints_cache_unreachable_transparent baseChain downCache 5 "0xabc" rfl rfl

/-- C10: the redemption thresholds are 1000, 3000 and 5000 points for
package types 1, 2 and 3; any other package type is rejected with an
invalid-package-type error; and when the user's points are below the
threshold the call fails with an insufficient-points error naming the
threshold and balance; in either failure the EIP-712 signer is never
invoked and the chain state is untouched.  At or above the threshold
the signer is invoked and its outcome, success or failure, is the
call's outcome. -/
theorem signRedeemPackage_thresholds (ch : Chain) (c : CacheState) (now : Nat) (a : String)
    (pkg nonce p : Nat) (hp : (getUserPoints ch c now a).result = Except.ok p) :
    requiredPointsFor 1 = some 1000 ∧ requiredPointsFor 2 = some 3000 ∧
    requiredPointsFor 3 = some 5000 ∧
    (pkg ≠ 1 → pkg ≠ 2 → pkg ≠ 3 →
      (signRedeemPackage ch c now a pkg nonce).result = Except.error JsError.invalidPackageType ∧
      (signRedeemPackage ch c now a pkg nonce).signed = false ∧
      (signRedeemPackage ch c now a pkg nonce).chain = ch) ∧
    (∀ req, requiredPointsFor pkg = some req → p < req →
      (signRedeemPackage ch c now a pkg nonce).result =
        Except.error (JsError.insufficientPoints req p) ∧
      (signRedeemPackage ch c now a pkg nonce).signed = false ∧
      (signRedeemPackage ch c now a pkg nonce).chain = ch) ∧
    (∀ req, requiredPointsFor pkg = some req → req ≤ p →
      (signRedeemPackage ch c now a pkg nonce).result =
        generateEIP712Signature ch a pkg nonce ∧
      (signRedeemPackage ch c now a pkg nonce).signed = true ∧
      (signRedeemPackage ch c now a pkg nonce).chain = ch) := by
  refine ⟨rfl, rfl, rfl, ?_, ?_, ?_⟩
  · intro h1 h2 h3
    simp [signRedeemPackage, hp, requiredPointsFor, h1, h2, h3]
  · intro req hreq hlt
    simp [signRedeemPackage, hp, hreq, hlt]
  · intro req hreq hge
    cases hs : generateEIP712Signature ch a pkg nonce <;>
      simp [signRedeemPackage, hp, hreq, Nat.not_lt.mpr hge, hs]

/-- A chain holding 5000 points for every address. -/
def richChain : Chain := { baseChain with points := fun _ => 5000 }

/-- A chain at 5000 points whose SDK signer call fails. -/
def signFailChain : Chain := { richChain with signOk := false }

/-- C10 witness: a user at 950 points requesting package type 2 is
rejected with the 3000-point threshold and the signer is never invoked;
a user at 5000 points requesting package type 3 gets the signer's
outcome, and when the SDK signer call fails that failure is
propagated. -/
theorem signRedeemPackage_thresholds_witness :
    ((signRedeemPackage baseChain emptyCache 10 "0xabc" 2 7).result =
      Except.error (JsError.insufficientPoints 3000 950) ∧
    (signRedeemPackage baseChain emptyCache 10 "0xabc" 2 7).signed = false ∧
    (signRedeemPackage baseChain emptyCache 10 "0xabc" 2 7).chain = baseChain) ∧
    ((signRedeemPackage richChain emptyCache 10 "0xabc" 3 7).result =
      generateEIP712Signature richChain "0xabc" 3 7 ∧
    (signRedeemPackage richChain emptyCache 10 "0xabc" 3 7).signed = true) ∧
    (signRedeemPackage signFailChain emptyCache 10 "0xabc" 3 7).result =
      Except.error JsError.chainError :=
  ⟨(signRedeemPackage_thresholds baseChain emptyCache 10 "0xabc" 2 7 950
      (by decide)).2.2.2.2.1 3000 (by decide) (by decide),
    ⟨((signRedeemPackage_thresholds richChain emptyCache 10 "0xabc" 3 7 5000
        (by decide)).2.2.2.2.2 5000 (by decide) (by decide)).1,
      ((signRedeemPackage_thresholds richChain emptyCache 10 "0xabc" 3 7 5000
        (by decide)).2.2.2.2.2 5000 (by decide) (by decide)).2.1⟩,
    by
      have h := (signRedeemPackage_thresholds signFailChain emptyCache 10 "0xabc" 3 7 5000
        (by decide)).2.2.2.2.2 5000 (by decide) (by decide)
      rw [h.1]
      rfl⟩

/-- C7: with a working cache and chain, two successive getUserPoints
calls for the same address with no intervening write return the same
value, and the second call is a cache hit that does not invoke the
Chain. -/
theorem getUserPoints_read_through_idempotent (ch : Chain) (c : CacheState) (now : Nat)
    (a : String) (hh : c.healthy = true) (hok : ch.readPointsOk = true) :
    ∃ p, (getUserPoints ch c now a).result = Except.ok p ∧
      (getUserPoints ch (getUserPoints ch c now a).cache now a).result = Except.ok p ∧
      (getUserPoints ch (getUserPoints ch c now a).cache now a).chainCalled = false := by
  cases hcv : getCachedData c now (generateKey CacheKeys.USER_POINTS a) with
  | some v =>
    refine ⟨v.toNum, ?_, ?_, ?_⟩ <;> simp [getUserPoints, hcv]
  | none =>
    have h1 : getUserPoints ch c now a =
        ⟨Except.ok (roundTo53 (ch.points a)),
          (cacheData c now (generateKey CacheKeys.USER_POINTS a)
            (JsVal.num (roundTo53 (ch.points a))) DEFAULT_EXPIRY).1, true⟩ := by
      simp [getUserPoints, hcv, hok]
    have h2 := getCachedData_after_cacheData_self c now (generateKey CacheKeys.USER_POINTS a)
      (JsVal.num (roundTo53 (ch.points a))) DEFAULT_EXPIRY hh (by decide)
    refine ⟨roundTo53 (ch.points a), ?_, ?_, ?_⟩
    · rw [h1]
    · rw [h1]
      simp [getUserPoints, h2, JsVal.toNum]
    · rw [h1]
      simp [getUserPoints, h2]

/-- C7 witness: the statement evaluated on the base fixture. -/
theorem getUserPoints_read_through_idempotent_witness :
    ∃ p, (getUserPoints baseChain emptyCache 10 "0xabc").result = Except.ok p ∧
      (getUserPoints baseChain (getUserPoints baseChain emptyCache 10 "0xabc").cache 10
        "0xabc").result = Except.ok p ∧
      (getUserPoints baseChain (getUserPoints baseChain emptyCache 10 "0xabc").cache 10
        "0xabc").chainCalled = false :=
  getUserPoints_read_through_idempotent baseChain emptyCache 10 "0xabc" rfl rfl

/-- C1: when the contract recordTransaction call succeeds and the cache
is reachable, the userPoints, freeWashStatus and nftMetadata keys for
the address are all deleted before success is returned, and the very
next getUserPoints goes to the Chain; when the contract call fails, the
failure is rethrown and the cache and chain are left untouched. -/
theorem recordTransaction_invalidates_on_success_only (ch : Chain) (c : CacheState)
    (a : String) (ts now2 : Nat) :
    (ch.recordOk = true → c.healthy = true →
      (recordTransaction ch c a ts).result = Except.ok "0xtxhash" ∧
      lookupEntry (recordTransaction ch c a ts).cache.store
        (generateKey CacheKeys.USER_POINTS a) = none ∧
      lookupEntry (recordTransaction ch c a ts).cache.store
        (generateKey CacheKeys.FREE_WASH_STATUS a) = none ∧
      lookupEntry (recordTransaction ch c a ts).cache.store
        (generateKey CacheKeys.NFT_METADATA a) = none ∧
      (getUserPoints (recordTransaction ch c a ts).chain
        (recordTransaction ch c a ts).cache now2 a).chainCalled = true) ∧
    (ch.recordOk = false →
      (recordTransaction ch c a ts).result = Except.error JsError.chainError ∧
      (recordTransaction ch c a ts).cache = c ∧
      (recordTransaction ch c a ts).chain = ch) := by
  constructor
  · intro hr hh
    have hcc := getUserPoints_chainCalled_of_miss (recordTransaction ch c a ts).chain
      (recordTransaction ch c a ts).cache now2 a
      (recordTransaction_points_miss ch c a ts now2 hr)
    obtain ⟨hb, st⟩ := c
    simp only at hh
    subst hh
    rw [recordTransaction_cache_healthy ch st a ts hr] at hcc ⊢
    refine ⟨(recordTransaction_result_ok ch ⟨true, st⟩ a ts hr).1, ?_, ?_, ?_, hcc⟩
    · rw [lookupEntry_removeEntry_ne _ _ _ (pointsKey_ne_nftKey a a),
        lookupEntry_removeEntry_ne _ _ _ (pointsKey_ne_fwKey a a),
        lookupEntry_removeEntry_self]
    · rw [lookupEntry_removeEntry_ne _ _ _ (fwKey_ne_nftKey a a),
        lookupEntry_removeEntry_self]
    · rw [lookupEntry_removeEntry_self]
  · intro hr
    simp [recordTransaction, hr]

/-- C1 witness: the success half on the base fixture and the failure
half on the failing chain. -/
theorem recordTransaction_invalidates_on_success_only_witness :
    (recordTransaction baseChain emptyCache "0xabc" 5000).result = Except.ok "0xtxhash" ∧
    (recordTransaction failChain emptyCache "0xabc" 5000).result =
      Except.error JsError.chainError :=
  ⟨((recordTransaction_invalidates_on_success_only baseChain emptyCache "0xabc" 5000 7).1
      rfl rfl).1,
    ((recordTransaction_invalidates_on_success_only failChain emptyCache "0xabc" 5000 7).2
      rfl).1⟩

/-- C4: when the chain write fails, the orchestration answers 500, the
locally persisted pending record does not survive (the store is exactly
as before the call), the cache is untouched, and no response payload is
produced. -/
theorem chainFailure_rolls_back (env : Env) (store0 : List TxRecord) (a d : String)
    (hu : env.userFound = true) (hr : env.chain.recordOk = false) :
    (recordTransactionHandler env store0 a d).status = 500 ∧
    (recordTransactionHandler env store0 a d).store = store0 ∧
    (recordTransactionHandler env store0 a d).cache = env.cache ∧
    (recordTransactionHandler env store0 a d).txRecordedEvents = 0 ∧
    (recordTransactionHandler env store0 a d).responsePoints = none := by
  simp [recordTransactionHandler, hu, recordTransaction, hr]

/-- An orchestration environment whose chain write fails. -/
def failEnv : Env := ⟨failChain, emptyCache, 0, true, true, true⟩

/-- C4 witness: the statement evaluated with a failing chain write. -/
theorem chainFailure_rolls_back_witness :
    (recordTransactionHandler failEnv [] "0xabc" "2025-01-01").status = 500 ∧
    (recordTransactionHandler failEnv [] "0xabc" "2025-01-01").store = [] ∧
    (recordTransactionHandler failEnv [] "0xabc" "2025-01-01").cache = failEnv.cache ∧
    (recordTransactionHandler failEnv [] "0xabc" "2025-01-01").txRecordedEvents = 0 ∧
    (recordTransactionHandler failEnv [] "0xabc" "2025-01-01").responsePoints = none :=
  chainFailure_rolls_back failEnv [] "0xabc" "2025-01-01" rfl rfl

/-- A chain on which the write succeeds but the points read fails. -/
def readFailChain : Chain := { baseChain with readPointsOk := false }

/-- An orchestration environment whose chain write succeeds but whose
subsequent points re-read fails. -/
def readFailEnv : Env := ⟨readFailChain, emptyCache, 0, true, true, true⟩

/-- C3 counterexample: the chain write succeeds and the ledger is
mutated (the address ends at 1010 points on-chain), yet because the
best-effort points re-read fails inside the same try block, the session
is aborted, the local record does not survive and the caller gets 500
instead of the success the claim requires. -/
theorem postWrite_read_failure_fails_confirmed_tx_cex :
    readFailChain.recordOk = true ∧
    (recordTransactionHandler readFailEnv [] "0xabc" "2025-01-01").status = 500 ∧
    (recordTransactionHandler readFailEnv [] "0xabc" "2025-01-01").store = [] ∧
    (recordTransactionHandler readFailEnv [] "0xabc" "2025-01-01").chain.points "0xabc" =
      1010 := by decide

/-- C3 amended: when the chain write succeeds AND the post-write reads
of points and NFT metadata also succeed, the record is committed and
200 returned, whatever the outcome of the email sends (the environment
is arbitrary in both email flags, whose failures are absorbed); but the
two post-write reads sit inside the atomic unit, so this success is
conditional on them. -/
theorem chainSuccess_commits_when_postWrite_reads_ok (env : Env) (store0 : List TxRecord)
    (a d : String) (hu : env.userFound = true) (hr : env.chain.recordOk = true)
    (hp : env.chain.readPointsOk = true) (hn : env.chain.readNFTOk = true) :
    (recordTransactionHandler env store0 a d).status = 200 ∧
    (recordTransactionHandler env store0 a d).store =
      store0 ++ [⟨a, d, true, some "0xtxhash"⟩] ∧
    (recordTransactionHandler env store0 a d).txRecordedEvents = 1 := by
  have hw := recordTransaction_result_ok env.chain env.cache a env.now hr
  have hp2 : (recordTransaction env.chain env.cache a env.now).chain.readPointsOk = true := by
    rw [hw.2]
    simpa [Chain.applyRecord] using hp
  have hn2 : (recordTransaction env.chain env.cache a env.now).chain.readNFTOk = true := by
    rw [hw.2]
    simpa [Chain.applyRecord] using hn
  have hmiss1 := recordTransaction_points_miss env.chain env.cache a env.now env.now hr
  have hr1 : (getUserPoints (recordTransaction env.chain env.cache a env.now).chain
      (recordTransaction env.chain env.cache a env.now).cache env.now a).result =
      Except.ok (roundTo53
        ((recordTransaction env.chain env.cache a env.now).chain.points a)) := by
    simp [getUserPoints, hmiss1, hp2]
  have hmiss2 : getCachedData (getUserPoints
      (recordTransaction env.chain env.cache a env.now).chain
      (recordTransaction env.chain env.cache a env.now).cache env.now a).cache env.now
      (generateKey CacheKeys.NFT_METADATA a) = none := by
    rw [getUserPoints_cache_other_key _ _ _ _ _ (Ne.symm (pointsKey_ne_nftKey a a))]
    exact recordTransaction_nft_miss env.chain env.cache a env.now env.now hr
  have hr2 : (getNFTMetadata (recordTransaction env.chain env.cache a env.now).chain
      (getUserPoints (recordTransaction env.chain env.cache a env.now).chain
        (recordTransaction env.chain env.cache a env.now).cache env.now a).cache env.now
      a).result = Except.ok
        { tokenId := roundTo53
            (((recordTransaction env.chain env.cache a env.now).chain.nft a).tokenId)
          metadataURI := ((recordTransaction env.chain env.cache a env.now).chain.nft a).metadataURI
          points := roundTo53
            (((recordTransaction env.chain env.cache a env.now).chain.nft a).points)
          tier := ((recordTransaction env.chain env.cache a env.now).chain.nft a).tier
          expiryTime := roundTo53
            (((recordTransaction env.chain env.cache a env.now).chain.nft a).expiryTime)
          nftExists := ((recordTransaction env.chain env.cache a env.now).chain.nft a).nftExists } := by
    simp [getNFTMetadata, hmiss2, hn2]
  simp [recordTransactionHandler, hu, hw.1, hr1, hr2]

/-- An orchestration environment on which both email sends fail. -/
def noEmailEnv : Env := ⟨baseChain, emptyCache, 0, true, false, false⟩

/-- C3 witness: the amended statement evaluated with both email sends
failing, showing the commit and success are unaffected. -/
theorem chainSuccess_commits_when_postWrite_reads_ok_witness :
    (recordTransactionHandler noEmailEnv [] "0xabc" "2025-01-01").status = 200 ∧
    (recordTransactionHandler noEmailEnv [] "0xabc" "2025-01-01").store =
      [⟨"0xabc", "2025-01-01", true, some "0xtxhash"⟩] ∧
    (recordTransactionHandler noEmailEnv [] "0xabc" "2025-01-01").txRecordedEvents = 1 := by
  have h := chainSuccess_commits_when_postWrite_reads_ok noEmailEnv [] "0xabc" "2025-01-01"
    rfl rfl rfl rfl
  simpa using h

/-- The standard orchestration environment for the end-to-end scenario:
user at 950 points, 60 points per wash, Bronze NFT snapshot. -/
def baseEnv : Env := ⟨baseChain, emptyCache, 0, true, true, true⟩

/-- First orchestration call of the end-to-end scenario. -/
def run1 : HandlerOutcome := recordTransactionHandler baseEnv [] "0xabc" "2025-01-01"

/-- Environment for the second, identical call: the chain and cache
left by the first call, with the contract granting no points this time
(same day, no point change). -/
def env2 : Env := { baseEnv with chain := { run1.chain with recordDelta := 0 }, cache := run1.cache }

/-- Second orchestration call of the end-to-end scenario. -/
def run2 : HandlerOutcome := recordTransactionHandler env2 run1.store "0xabc" "2025-01-01"

/-- C9 counterexample: the first call crosses Bronze to Silver and
emits the tier-change notification and broadcast once; the second
identical call leaves the points unchanged at 1010, yet emits the
tier-change notification and broadcast again, because the prior-tier
source (the chain NFT metadata snapshot) is never updated by the flow. -/
theorem tier_event_duplicated_cex :
    run1.tierUpgradedEvents = 1 ∧ run1.tierEmailsAttempted = 1 ∧
    run2.responsePoints = run1.responsePoints ∧
    run2.tierUpgradedEvents = 1 ∧ run2.tierEmailsAttempted = 1 := by decide

/-- C9 amended: recording the boundary-crossing transaction emits the
tier-change notification and broadcast exactly once within that call;
but since the NFT tier snapshot compared against stays Bronze, a second
identical transaction with no point change emits the tier-change
notification and broadcast once more. -/
theorem tier_event_emitted_on_each_identical_tx :
    run1.status = 200 ∧ run1.responsePoints = some 1010 ∧
    run1.responseTier = some "Silver" ∧
    run1.tierUpgradedEvents = 1 ∧ run1.tierEmailsAttempted = 1 ∧
    (run1.chain.nft "0xabc").tier = "Bronze" ∧
    run2.status = 200 ∧ run2.responsePoints = some 1010 ∧
    run2.responseTier = some "Silver" ∧
    run2.tierUpgradedEvents = 1 ∧ run2.tierEmailsAttempted = 1 := by decide

end AgoWash
